import Mathlib

/-!
Shallow embedding of the authentication / RBAC core of the `karinja` back-end
(`src/back-end/src`): the token codec (`utilities/authentication.py`), the
DPoP key-binding verifier and current-user resolver (`dependencies.py`), the
login / refresh endpoints (`routers/authentication.py`) and the user-record
authorization checks (`routers/user.py`).

JSON payloads (orjson-decoded claim sets) are modelled by the inductive
`Value`; Python dicts by association lists with unique keys; HMAC signing by
a concrete injective-enough code over a serialization of the claims (only
equality of signatures matters to the control flow being verified); the
relational store — out of scope per the spec — by explicit outcome
parameters.
-/

namespace Karinja

/-- A JSON value as produced by `orjson.loads` (floats are not needed by any
modelled code path and are omitted). -/
inductive Value where
  | null
  | bool (b : Bool)
  | int (n : Int)
  | str (s : String)
  | arr (xs : List Value)
  | obj (kvs : List (String × Value))

/-- A Python dict with string keys, in insertion order, keys unique. -/
abbrev Claims := List (String × Value)

/-- `d.get(k)`: first (only) binding of `k`. -/
def dictGet (d : Claims) (k : String) : Option Value :=
  (d.find? (fun kv => kv.1 == k)).map (fun kv => kv.2)

/-- `d[k] = v` / `d.update({k: v})`: replace in place if the key exists
(keeping its position, as CPython dicts do), else append. -/
def dictSet (d : Claims) (k : String) (v : Value) : Claims :=
  if d.any (fun kv => kv.1 == k) then
    d.map (fun kv => if kv.1 == k then (k, v) else kv)
  else
    d ++ [(k, v)]

/-- Python truthiness of a JSON value. -/
def truthy : Value → Bool
  | .null => false
  | .bool b => b
  | .int n => n != 0
  | .str s => s ≠ ""
  | .arr xs => !xs.isEmpty
  | .obj kvs => !kvs.isEmpty

/-- Truthiness of `d.get(k)` (Python `None` is falsy). -/
def truthyOpt : Option Value → Bool
  | none => false
  | some v => truthy v

/-- Python `a or b` on two possibly-missing values: `a` if truthy, else `b`. -/
def pyOr (a b : Option Value) : Option Value :=
  if truthyOpt a then a else b

mutual

/-- Canonical serialization of a value, input to the modelled MAC. -/
def Value.ser : Value → String
  | .null => "null"
  | .bool true => "true"
  | .bool false => "false"
  | .int n => toString n
  | .str s => "s:" ++ s ++ ";"
  | .arr xs => "a:" ++ Value.serList xs ++ ";"
  | .obj kvs => "o:" ++ Value.serObj kvs ++ ";"

def Value.serList : List Value → String
  | [] => ""
  | v :: rest => Value.ser v ++ "," ++ Value.serList rest

def Value.serObj : List (String × Value) → String
  | [] => ""
  | (k, v) :: rest => "k:" ++ k ++ "=" ++ Value.ser v ++ "," ++ Value.serObj rest

end

/-- Serialization of a whole claim set. -/
def serClaims (c : Claims) : String := Value.serObj c

/-- A concrete string code standing in for the cryptographic MAC: the
verified control flow depends only on whether a presented signature equals
the recomputed one, never on collision resistance. -/
def strCode (s : String) : Nat :=
  s.data.foldl (fun a c => a * 131 + c.toNat + 1) 7

/-- Python `str.upper()`: character-wise uppercasing (the methods compared
here are ASCII). -/
def pyToUpper (s : String) : String :=
  ⟨s.data.map Char.toUpper⟩

/-- `int(x)` on a JSON value (`utilities` code calls it on `iat`, PyJWT on
`exp`/`nbf`/`iat`): ints pass through, bools become 0/1, decimal strings
parse; anything else raises. Sign-prefixed forms other than `-`, underscore
separators and non-decimal bases are not reached by any modelled path. -/
def pyIntOfValue : Value → Option Int
  | .int n => some n
  | .bool b => some (if b then 1 else 0)
  | .str s => s.trim.toInt?
  | _ => none

/-! ## TokenCodec — `utilities/authentication.py` -/

/-- `ACCESS_TOKEN_EXPIRE_MINUTES = 15`. -/
def ACCESS_TOKEN_EXPIRE_MINUTES : Int := 15

/-- `REFRESH_TOKEN_EXPIRE_MINUTES = 10080`. -/
def REFRESH_TOKEN_EXPIRE_MINUTES : Int := 10080

/-- `SECRET_KEY = os.getenv("P2_SECURITY_KEY")`: the process-wide signing
secret, an opaque startup constant; modelled by a fixed string. -/
def SECRET_KEY : String := "process-secret"

/-- `ALGORITHM = "HS512"`. -/
def ALGORITHM : String := "HS512"

/-- A compact JWS as `jwt.encode` produces and `jwt.decode` consumes:
either an unparseable blob or a header algorithm, a claim set and a
signature.  The signature is a `Nat`; a genuine token's signature is the
modelled MAC of the secret, the algorithm and the serialized claims. -/
inductive Tok where
  | garbage
  | jws (alg : String) (claims : Claims) (sig : Nat)

/-- The modelled HMAC: any concrete function of key, algorithm and payload
serialization serves, since only signature equality steers the code. -/
def macSign (key alg payload : String) : Nat :=
  strCode (key ++ "|" ++ alg ++ "|" ++ payload)

/-- `jwt.encode(payload, key, algorithm)`. -/
def jwtEncode (payload : Claims) (key alg : String) : Tok :=
  .jws alg payload (macSign key alg (serClaims payload))

/-- The PyJWT error classes the decoder distinguishes.  `invalidToken`
covers the remaining `InvalidTokenError` subclasses (malformed blob,
non-integer `exp`/`nbf`, `InvalidIssuedAtError`, `ImmatureSignatureError`),
which `decode_access_token` maps to one message. -/
inductive JwtError where
  | expiredSignature
  | invalidSignature
  | invalidAlgorithm
  | invalidToken
deriving DecidableEq

/-- The `exp` validation step of `jwt.decode` (skipped when `verify_exp`
is off).  Expiry is `exp <= now` (PyJWT, zero leeway). -/
def jwtValidateExp (claims : Claims) (verifyExp : Bool) (now : Int) :
    Except JwtError Claims :=
  if verifyExp then
    match dictGet claims "exp" with
    | some ev =>
      match pyIntOfValue ev with
      | none => .error .invalidToken
      | some e => if e ≤ now then .error .expiredSignature else .ok claims
    | none => .ok claims
  else .ok claims

/-- The `nbf` then `exp` claim validation steps of `jwt.decode`. -/
def jwtValidateNbfExp (claims : Claims) (verifyExp : Bool) (now : Int) :
    Except JwtError Claims :=
  match dictGet claims "nbf" with
  | some nv =>
    match pyIntOfValue nv with
    | none => .error .invalidToken
    | some nbf => if now < nbf then .error .invalidToken else jwtValidateExp claims verifyExp now
  | none => jwtValidateExp claims verifyExp now

/-- `jwt.decode(token, key, algorithms=[...], options={"verify_exp": b})`:
verify the header algorithm and the signature, then validate `iat`, `nbf`
(both on by default) and — only when `verifyExp` — `exp`, against integer
Unix time `now`. -/
def jwtDecode (t : Tok) (key : String) (algorithms : List String)
    (verifyExp : Bool) (now : Int) : Except JwtError Claims :=
  match t with
  | .garbage => .error .invalidToken
  | .jws alg claims sig =>
    if ¬ algorithms.contains alg then .error .invalidAlgorithm
    else if sig ≠ macSign key alg (serClaims claims) then .error .invalidSignature
    else
      match dictGet claims "iat" with
      | some iv =>
        match pyIntOfValue iv with
        | none => .error .invalidToken
        | some _ => jwtValidateNbfExp claims verifyExp now
      | none => jwtValidateNbfExp claims verifyExp now

/-- `expires_delta` argument of `create_access_token`: a `timedelta`, an
`int` (minutes), `None`, or a value of any other type. -/
inductive ExpiresDelta where
  | timedelta (seconds : Int)
  | intMinutes (m : Int)
  | noneV
  | otherType

/-- The seconds the delta normalizes to; `none` means `TypeError`. -/
def deltaSeconds : ExpiresDelta → Option Int
  | .timedelta s => some s
  | .intMinutes m => some (m * 60)
  | .noneV => some (ACCESS_TOKEN_EXPIRE_MINUTES * 60)
  | .otherType => none

/-- The `TypeError` raised for an unsupported `expires_delta`. -/
inductive CreateTokenError where
  | typeError
deriving DecidableEq

/-- `create_access_token(data, expires_delta)` at integer Unix time `now`:
copy the claims, normalize the delta, set `exp = int((now + delta)
.timestamp())` on the copy, sign. -/
def create_access_token (data : Claims) (expires_delta : ExpiresDelta)
    (now : Int) : Except CreateTokenError Tok :=
  let to_encode := data
  match deltaSeconds expires_delta with
  | none => .error .typeError
  | some ds =>
    let expire := now + ds
    let to_encode := dictSet to_encode "exp" (.int expire)
    .ok (jwtEncode to_encode SECRET_KEY ALGORITHM)

/-- An `HTTPException(status_code, detail)`. -/
structure HttpError where
  status : Nat
  detail : String
deriving DecidableEq

/-- `decode_access_token(token, verify_exp)`: decode, translating each
PyJWT error class to its fixed 401 message. -/
def decode_access_token (token : Tok) (verify_exp : Bool) (now : Int) :
    Except HttpError Claims :=
  match jwtDecode token SECRET_KEY [ALGORITHM] verify_exp now with
  | .ok p => .ok p
  | .error .expiredSignature => .error ⟨401, "توکن منقضی شده است"⟩
  | .error .invalidSignature => .error ⟨401, "امضای توکن نامعتبر است"⟩
  | .error .invalidAlgorithm => .error ⟨401, "الگوریتم امضای توکن پشتیبانی نمی‌شود"⟩
  | .error .invalidToken => .error ⟨401, "فرمت/امضای توکن نامعتبر است"⟩

/-! ## Mutation model of `create_access_token` — for the frame property

Python dicts are mutable heap objects; `data.copy()` allocates a fresh one
and `to_encode.update(...)` writes in place.  To state that the caller's
dict is untouched we run the same steps over an explicit heap of dict
cells addressed by allocation index. -/

/-- A heap of dict cells; a reference is an index into `cells`. -/
structure DictHeap where
  cells : List Claims

/-- Dereference (out-of-range reads are never performed by the model). -/
def DictHeap.read (h : DictHeap) (r : Nat) : Claims :=
  (h.cells.getD r [])

/-- Allocate a fresh cell holding `c`, returning its reference. -/
def DictHeap.alloc (h : DictHeap) (c : Claims) : DictHeap × Nat :=
  (⟨h.cells ++ [c]⟩, h.cells.length)

/-- Overwrite the cell at `r`. -/
def DictHeap.write (h : DictHeap) (r : Nat) (c : Claims) : DictHeap :=
  ⟨h.cells.set r c⟩

/-- `create_access_token` as a heap transformer: `to_encode = data.copy()`
allocates, the delta is normalized (a `TypeError` aborts here), and
`to_encode.update({"exp": ...})` writes only the fresh cell. -/
def create_access_token_heap (h : DictHeap) (dataRef : Nat)
    (expires_delta : ExpiresDelta) (now : Int) :
    DictHeap × Except CreateTokenError Tok :=
  let (h1, copyRef) := h.alloc (h.read dataRef)
  match deltaSeconds expires_delta with
  | none => (h1, .error .typeError)
  | some ds =>
    let expire := now + ds
    let h2 := h1.write copyRef (dictSet (h1.read copyRef) "exp" (.int expire))
    (h2, .ok (jwtEncode (h2.read copyRef) SECRET_KEY ALGORITHM))

/-! ## AuthenticationService — `utilities/authentication.py` and
`routers/authentication.py` -/

/-- The columns of a `User` row that the authentication core reads
(`password` is the stored digest; `role` and `account_status` the enum
string values). -/
structure UserRec where
  id : String
  username : String
  password : String
  role : String
  full_name : String
  account_status : String

/-- `result.one_or_none()`: `None` on no row, the row if unique, and a
`MultipleResultsFound` exception otherwise. -/
def one_or_none {α : Type} (l : List α) : Except Unit (Option α) :=
  match l with
  | [] => .ok none
  | [a] => .ok (some a)
  | _ => .error ()

/-- The dict `authenticate_user` returns on success. -/
structure AuthOk where
  user_id : String
  user_role : String
  user_full_name : String
  user_account_status : String

/-- Exceptions escaping a request handler: an `HTTPException`, or one of
the uncaught (500-producing) Python exceptions a handler can raise —
`AttributeError` from `.upper()`/`.endswith()` on a non-string claim,
`TypeError` from `in`/indexing on a non-container or from an unsupported
`expires_delta`, `MultipleResultsFound` from `one_or_none`. -/
inductive PyExn where
  | http (e : HttpError)
  | attributeError
  | typeError
  | multipleResults
deriving DecidableEq

/-- `authenticate_user(credentials, session)`: look the username up in the
store, verify the password against the stored digest (`verify_password`,
an opaque PBKDF2 collaborator, is the `verify` parameter); *either*
failure raises the same fixed 401. -/
def authenticate_user (store : List UserRec) (verify : String → String → Bool)
    (username password : String) : Except PyExn AuthOk :=
  match one_or_none (store.filter (fun u => u.username == username)) with
  | .error _ => .error .multipleResults
  | .ok user =>
    match user with
    | none => .error (.http ⟨401, "نام کاربری یا گذرواژه پیدا نشد"⟩)
    | some u =>
      if ¬ verify password u.password then
        .error (.http ⟨401, "نام کاربری یا گذرواژه پیدا نشد"⟩)
      else
        .ok ⟨u.id, u.role, u.full_name, u.account_status⟩

/-! ## RoleGate — `dependencies.py`, `require_roles` -/

/-- Python `user_role in required_roles` for a tuple of role strings: a
missing or non-string claim value is `==` to no string. -/
def roleMem (user_role : Option Value) (required_roles : List String) : Bool :=
  match user_role with
  | some (.str r) => required_roles.contains r
  | _ => false

/-- The dependency body built by `require_roles(*required_roles)`, applied
to the principal dict `get_current_user` produced: an empty tuple admits
any authenticated principal; otherwise the principal's `role` claim must
be one of the required strings, else 403. -/
def require_roles (required_roles : List String) (user : Claims) :
    Except HttpError Claims :=
  if required_roles.isEmpty then .ok user
  else
    let user_role := dictGet user "role"
    if ¬ roleMem user_role required_roles then
      .error ⟨403, "شما دسترسی لازم را ندارید"⟩
    else .ok user

/-! ## KeyBindingVerifier (Mode B) and CurrentUserResolver —
`dependencies.py` -/

/-- A DPoP proof JWT after parsing: a claim set and a signature.  A
genuine proof's signature is the modelled MAC of the bound public JWK over
the serialized claims; `jwcrypto` verification succeeds exactly when the
presented signature matches. -/
structure DpopJwt where
  claims : Claims
  sig : Nat

/-- The value of a `DPoP` header (or `dpop` query parameter): an
unparseable proof string, or a parsed proof.  An absent or empty (falsy)
header is an absent `Option`. -/
inductive DpopHeader where
  | malformed
  | proof (p : DpopJwt)

/-- `jwk.JWK.from_json(dumps(v))`: jwcrypto accepts a JSON object carrying
a recognised `kty` member and raises otherwise; modelled as requiring a
string `kty` key. -/
def jwkFromJson : Value → Option Value
  | .obj kvs =>
    match dictGet kvs "kty" with
    | some (.str _) => some (.obj kvs)
    | _ => none
  | _ => none

/-- The modelled proof MAC, keyed by the client JWK. -/
def macDpop (key : Value) (claimSet : Claims) : Nat :=
  strCode (Value.ser key ++ "#" ++ serClaims claimSet)

/-- The raw `X-Client-JWK` header: hex-encoded JSON.  The hex / UTF-8 /
JSON decoding chain is abstracted to its outcome: `malformed` when any
step raises, else the decoded JSON value.  An absent or empty header is an
absent `Option`. -/
inductive ClientKeyHeader where
  | malformed
  | wellFormed (v : Value)

/-- The parts of a FastAPI `Request` the modelled handlers read.  Headers
whose raw form does not matter to any modelled branch are pre-split:
`authorization` / `refreshHeader` are `none` when the header is absent,
`some none` when it is empty after `removeprefix("Bearer")`/`strip()`, and
`some (some t)` when a token remains. -/
structure Request where
  method : String
  urlPath : String
  authorization : Option (Option Tok)
  refreshHeader : Option (Option Tok)
  dpopHeader : Option DpopHeader
  dpopQuery : Option DpopHeader
  xClientJwk : Option ClientKeyHeader

/-- `int(iat)` with the source's fallback `int(float(iat))` for strings:
decimal forms `[-]digits[.digits]` truncate toward zero; exponent and
special float forms are not modelled (no modelled path reaches them). -/
def pyFloatTruncOfString (s : String) : Option Int :=
  let t := s.trim
  match t.splitOn "." with
  | [a] => a.toInt?
  | [a, b] =>
    if ¬ b.toList.all Char.isDigit then none
    else if a = "" ∨ a = "-" then (if b = "" then none else some 0)
    else a.toInt?
  | _ => none

/-- `try: iat_ts = int(iat) except: try: iat_ts = int(float(iat))`. -/
def pyIatToInt (v : Value) : Option Int :=
  match pyIntOfValue v with
  | some n => some n
  | none =>
    match v with
    | .str s => pyFloatTruncOfString s
    | _ => none

/-- `_validate_dpop_proof(request, cnf_jwk)` at integer Unix time `now`:
require the proof header; load the bound JWK; verify the proof signature;
require truthy `htm`, `htu`, `iat`, `jti`; match `htm` case-insensitively
against the request method; require `htu` to end with the request path;
convert `iat` and enforce `|now - iat| <= 300`.  Each failure is a 401
with its own message; `.upper()`/`.endswith` on a non-string claim raises
an uncaught `AttributeError`. -/
def _validate_dpop_proof (request : Request) (cnf_jwk : Value) (now : Int) :
    Except PyExn Unit :=
  match request.dpopHeader with
  | none => .error (.http ⟨401, "DPoP proof required"⟩)
  | some dh =>
    match jwkFromJson cnf_jwk with
    | none => .error (.http ⟨401, "کلید مشتری نامعتبر است"⟩)
    | some jwk_obj =>
      match dh with
      | .malformed => .error (.http ⟨401, "DPoP proof امضا/فرمت نامعتبر است"⟩)
      | .proof p =>
        if p.sig ≠ macDpop jwk_obj p.claims then
          .error (.http ⟨401, "DPoP proof امضا/فرمت نامعتبر است"⟩)
        else
          let htm := dictGet p.claims "htm"
          let htu := dictGet p.claims "htu"
          let iat := dictGet p.claims "iat"
          let jti := dictGet p.claims "jti"
          if !(truthyOpt htm && truthyOpt htu && truthyOpt iat && truthyOpt jti) then
            .error (.http ⟨401, "DPoP proof ناقص است"⟩)
          else
            match htm with
            | some (.str htmStr) =>
              if pyToUpper htmStr ≠ pyToUpper request.method then
                .error (.http ⟨401, "DPoP proof با متد درخواست همخوانی ندارد"⟩)
              else
                match htu with
                | some (.str htuStr) =>
                  if ¬ htuStr.endsWith request.urlPath then
                    .error (.http ⟨401, "DPoP proof با مسیر درخواست همخوانی ندارد"⟩)
                  else
                    match pyIatToInt (iat.getD .null) with
                    | none => .error (.http ⟨401, "DPoP proof iat نامعتبر است"⟩)
                    | some iat_ts =>
                      if 300 < (now - iat_ts).natAbs then
                        .error (.http ⟨401, "DPoP proof منقضی یا دارای اختلاف زمانی است"⟩)
                      else .ok ()
                | _ => .error .attributeError
            | _ => .error .attributeError

/-- The principal dict `get_current_user` returns: explicit `id` and
`role`, then the payload minus duplicate `id`/`sub`/`role` keys. -/
def principalOf (payload : Claims) (user_id role : Option Value) : Claims :=
  ("id", user_id.getD .null) :: ("role", role.getD .null) ::
    payload.filter (fun kv => !(kv.1 == "id" || kv.1 == "sub" || kv.1 == "role"))

/-- `get_current_user(request)`: extract the bearer token, decode with
expiry verification, require `token_type == "access"`, require a truthy
subject (`sub` or `id`) and role, and — when the payload carries a truthy
`cnf` — require a truthy `cnf.jwk` and validate the DPoP proof. -/
def get_current_user (request : Request) (now : Int) : Except PyExn Claims :=
  match request.authorization with
  | none => .error (.http ⟨401, "احراز هویت نشده است"⟩)
  | some none => .error (.http ⟨401, "توکن ارسال‌شده معتبر نیست"⟩)
  | some (some token) =>
    match decode_access_token token true now with
    | .error e => .error (.http e)
    | .ok payload =>
      let isAccess := match dictGet payload "token_type" with
        | some (.str s) => s == "access"
        | _ => false
      if !isAccess then
        .error (.http ⟨401, "توکن ارسالی توکن دسترسی نیست"⟩)
      else
        let user_id := pyOr (dictGet payload "sub") (dictGet payload "id")
        let role := dictGet payload "role"
        if !(truthyOpt user_id && truthyOpt role) then
          .error (.http ⟨403, "ادعاهای توکن ناقص است"⟩)
        else
          let cnf := dictGet payload "cnf"
          if truthyOpt cnf then
            let jwk_in_cnf := match cnf with
              | some (.obj kvs) => dictGet kvs "jwk"
              | _ => none
            if ¬ truthyOpt jwk_in_cnf then
              .error (.http ⟨401, "توکن دارای cnf نامعتبر است"⟩)
            else
              match _validate_dpop_proof request (jwk_in_cnf.getD .null) now with
              | .error e => .error e
              | .ok _ => .ok (principalOf payload user_id role)
          else .ok (principalOf payload user_id role)

/-! ## Login and refresh endpoints — `routers/authentication.py` -/

/-- The `/login/` response body. -/
structure LoginResponse where
  user_id : String
  role : String
  access_token : Tok
  refresh_token : Tok
  token_type : String
  access_expires_in : Int
  refresh_expires_in : Int

/-- `login(session, request, form)` at integer Unix time `now`: decode an
optional `X-Client-JWK` header (any hex/JSON failure is an immediate 400,
before credentials are even checked); authenticate; mint an access and a
refresh payload (`sub`, `role`, `token_type`, `jti`), both carrying
`cnf.jwk = client_jwk` when a truthy client key was supplied; sign both. -/
def login (store : List UserRec) (verify : String → String → Bool)
    (request : Request) (username password : String) (now : Int) :
    Except PyExn LoginResponse :=
  let parsed : Except PyExn (Option Value) :=
    match request.xClientJwk with
    | none => .ok none
    | some .malformed => .error (.http ⟨400, "فرمت JWK ناقص است"⟩)
    | some (.wellFormed v) => .ok (some v)
  match parsed with
  | .error e => .error e
  | .ok client_jwk =>
    match authenticate_user store verify username password with
    | .error e => .error e
    | .ok user =>
      let user_id := user.user_id
      let role := user.user_role
      let base_access : Claims :=
        [("sub", .str user_id), ("role", .str role), ("token_type", .str "access"),
         ("jti", .str ("access-" ++ user_id ++ "-" ++ toString now))]
      let base_refresh : Claims :=
        [("sub", .str user_id), ("role", .str role), ("token_type", .str "refresh"),
         ("jti", .str ("refresh-" ++ user_id ++ "-" ++ toString now))]
      let payloads :=
        match client_jwk with
        | some cj =>
          if truthy cj then
            (dictSet base_access "cnf" (.obj [("jwk", cj)]),
             dictSet base_refresh "cnf" (.obj [("jwk", cj)]))
          else (base_access, base_refresh)
        | none => (base_access, base_refresh)
      match create_access_token payloads.1 (.intMinutes ACCESS_TOKEN_EXPIRE_MINUTES) now,
            create_access_token payloads.2 (.intMinutes REFRESH_TOKEN_EXPIRE_MINUTES) now with
      | .ok acc, .ok ref =>
        .ok ⟨user_id, role, acc, ref, "bearer",
             ACCESS_TOKEN_EXPIRE_MINUTES * 60, REFRESH_TOKEN_EXPIRE_MINUTES * 60⟩
      | _, _ => .error .typeError

/-- The DPoP block `refresh_token` inlines — verbatim identical in its
`refresh` and `access` branches, so embedded once: load the bound JWK and
verify the proof inside one `try` whose `except Exception` maps every
non-HTTP failure (bad JWK, bad signature, `.upper()` on a non-string) to
one fixed 401; inside it, require truthy `htu` and `htm` and match `htm`
case-insensitively against the method.  No `htu`-path, `iat` or `jti`
check appears here. -/
def refreshDpopCheck (request_method : String) (dpop : DpopHeader)
    (client_jwk_json : Value) : Except PyExn Unit :=
  match jwkFromJson client_jwk_json with
  | none => .error (.http ⟨401, "DPoP proof امضا/فرمت نامعتبر است"⟩)
  | some jwk_obj =>
    match dpop with
    | .malformed => .error (.http ⟨401, "DPoP proof امضا/فرمت نامعتبر است"⟩)
    | .proof p =>
      if p.sig ≠ macDpop jwk_obj p.claims then
        .error (.http ⟨401, "DPoP proof امضا/فرمت نامعتبر است"⟩)
      else
        let htu := dictGet p.claims "htu"
        let htm := dictGet p.claims "htm"
        if !(truthyOpt htu && truthyOpt htm) then
          .error (.http ⟨401, "DPoP proof نامعتبر است"⟩)
        else
          match htm with
          | some (.str m) =>
            if pyToUpper m ≠ pyToUpper request_method then
              .error (.http ⟨401, "DPoP proof با متد ناسازگار است"⟩)
            else .ok ()
          | _ => .error (.http ⟨401, "DPoP proof امضا/فرمت نامعتبر است"⟩)

/-- Python `"jwk" in s` for a string `s` (substring test). -/
def strContainsJwk (s : String) : Bool :=
  1 < (s.splitOn "jwk").length

/-- `cnf = payload.get("cnf"); if cnf and "jwk" in cnf:` — then require a
proof (`requiredMsg` differs between the two branches) and run the inline
check on `cnf["jwk"]`.  `in` on a truthy non-container raises `TypeError`,
as does `cnf["jwk"]` on a string or list that does contain `"jwk"`. -/
def refreshCnfGate (request_method requiredMsg : String)
    (dpop : Option DpopHeader) (cnf : Option Value) : Except PyExn Unit :=
  match cnf with
  | none => .ok ()
  | some c =>
    if ¬ truthy c then .ok ()
    else
      match c with
      | .obj kvs =>
        if kvs.any (fun kv => kv.1 == "jwk") then
          match dpop with
          | none => .error (.http ⟨401, requiredMsg⟩)
          | some d => refreshDpopCheck request_method d ((dictGet kvs "jwk").getD .null)
        else .ok ()
      | .str s => if strContainsJwk s then .error .typeError else .ok ()
      | .arr xs =>
        if xs.any (fun v => match v with | .str t => t == "jwk" | _ => false) then
          .error .typeError
        else .ok ()
      | _ => .error .typeError

/-- The `/refresh-token/` response body. -/
structure RefreshResponse where
  access_token : Tok
  refresh_token : Tok
  token_type : String

/-- `refresh_token(request)` at integer Unix time `now`: take the token
from `Authorization-Refresh`, falling back to `Authorization`; decode it
*with* expiry verification; accept token types `access` and `refresh`; in
both branches run the same inline DPoP gate when the payload carries a
`cnf` with a `jwk`; then mint a rotated access/refresh pair (fresh `jti`s
from the current timestamp, `cnf` carried forward when truthy). -/
def refresh_token (request : Request) (now : Int) :
    Except PyExn RefreshResponse :=
  let token : Option Tok :=
    match request.refreshHeader with
    | some (some t) => some t
    | _ =>
      match request.authorization with
      | some (some t) => some t
      | _ => none
  match token with
  | none => .error (.http ⟨401, "توکن refresh یا access یافت نشد (هدر/کوکی/کوئری)."⟩)
  | some tk =>
    let dpop := match request.dpopHeader with
      | some d => some d
      | none => request.dpopQuery
    match decode_access_token tk true now with
    | .error e => .error (.http e)
    | .ok payload =>
      let token_type : Option String := match dictGet payload "token_type" with
        | some (.str s) => some s
        | _ => none
      if !(token_type == some "access" || token_type == some "refresh") then
        .error (.http ⟨401, "نوع توکن پشتیبانی نمی‌شود"⟩)
      else
        let requiredMsg :=
          if token_type == some "refresh" then
            "DPoP proof لازم است (برای توکن refresh با cnf)."
          else
            "DPoP proof لازم است (برای access token دارای cnf)."
        match refreshCnfGate request.method requiredMsg dpop (dictGet payload "cnf") with
        | .error e => .error e
        | .ok _ =>
          let user_id := (dictGet payload "sub").getD .null
          let user_role := (dictGet payload "role").getD .null
          let now_ts := toString now
          let base_access : Claims :=
            [("sub", user_id), ("role", user_role), ("token_type", .str "access"),
             ("jti", .str ("access-" ++ now_ts))]
          let base_refresh : Claims :=
            [("sub", user_id), ("role", user_role), ("token_type", .str "refresh"),
             ("jti", .str ("refresh-" ++ now_ts))]
          let cnfv := dictGet payload "cnf"
          let new_access_payload :=
            if truthyOpt cnfv then dictSet base_access "cnf" (cnfv.getD .null) else base_access
          let new_refresh_payload :=
            if truthyOpt cnfv then dictSet base_refresh "cnf" (cnfv.getD .null) else base_refresh
          match create_access_token new_access_payload (.intMinutes ACCESS_TOKEN_EXPIRE_MINUTES) now,
                create_access_token new_refresh_payload (.intMinutes REFRESH_TOKEN_EXPIRE_MINUTES) now with
          | .ok na, .ok nr => .ok ⟨na, nr, "bearer"⟩
          | _, _ => .error .typeError

/-! ## User router — `routers/user.py` -/

/-- The `UserRole` enum values (`utilities/enumerables.py`). -/
def FULL_ADMIN : String := "full_admin"

/-- `UserRole.ADMIN.value`. -/
def ADMIN : String := "admin"

/-- `UserRole.EMPLOYER.value`. -/
def EMPLOYER : String := "employer"

/-- `UserRole.JOB_SEEKER.value`. -/
def JOB_SEEKER : String := "job_seeker"

/-- The role/ownership gate of `patch_user` (lines 212–236): requester id
and role come from the principal, target id and role from the fetched
row.  `ADMIN` is blocked on a foreign target whose role is not
`JOB_SEEKER`/`EMPLOYER` (with a dedicated message for `FULL_ADMIN`
targets, unreachable after the first check); `JOB_SEEKER`/`EMPLOYER` are
blocked on any foreign target; other requesters pass. -/
def patch_user_gate (requester_role requester_id_str : String)
    (target_id_str target_role : String) : Except HttpError Unit :=
  if requester_role == ADMIN then
    if target_id_str ≠ requester_id_str ∧
        ¬ (target_role == JOB_SEEKER ∨ target_role == EMPLOYER) then
      .error ⟨403, "ادمین فقط مجاز به ویرایش خودش یا کاربران با نقش JOB_SEEKER/EMPLOYER است"⟩
    else if target_role == FULL_ADMIN ∧ target_id_str ≠ requester_id_str then
      .error ⟨403, "شما اجازه ویرایش یک FULL_ADMIN را ندارید"⟩
    else .ok ()
  else if requester_role == JOB_SEEKER ∨ requester_role == EMPLOYER then
    if target_id_str ≠ requester_id_str then
      .error ⟨403, "شما اجازه ویرایش کاربر دیگری را ندارید"⟩
    else .ok ()
  else .ok ()

/-- The role/ownership gate of `delete_user` (lines 289–308): same shape
as `patch_user`'s without the second (unreachable) `FULL_ADMIN` branch. -/
def delete_user_gate (requester_role requester_id_str : String)
    (target_id_str target_role : String) : Except HttpError Unit :=
  if requester_role == ADMIN then
    if target_id_str ≠ requester_id_str ∧
        ¬ (target_role == JOB_SEEKER ∨ target_role == EMPLOYER) then
      .error ⟨403, "ادمین فقط مجاز به حذف خودش یا کاربران با نقش JOB_SEEKER/EMPLOYER است"⟩
    else .ok ()
  else if requester_role == JOB_SEEKER ∨ requester_role == EMPLOYER then
    if target_id_str ≠ requester_id_str then
      .error ⟨403, "شما اجازه حذف کاربر دیگری را ندارید"⟩
    else .ok ()
  else .ok ()

/-- The request body of `POST /users/` (`schemas/user.py`, `UserCreate`):
the fields the handler reads.  The account-status field is spelled
`AccountStatus` in the schema; the handler's `user_create.account_status`
read is part of the ORM-construction step abstracted below. -/
structure UserCreate where
  username : String
  email : String
  phone : Option Int
  password : String
  role : String
  account_status : String
  full_name : Option String

/-- Outcome of the `try` block of `create_user` — ORM object construction
plus `session.add`/`commit`/`refresh`, the out-of-scope record store:
success, a uniqueness violation (`IntegrityError`), or any other
exception with its text. -/
inductive CommitOutcome where
  | committed
  | integrityError
  | otherError (msg : String)

/-- The row `create_user` builds and returns. -/
structure CreatedUser where
  full_name : String
  email : String
  phone : Option Int
  username : String
  role : String
  account_status : String
  password : String

/-- `create_user(session, user_create)` of `routers/user.py` (the
`require_roles`/`oauth2_scheme` dependencies are commented out in the
source, so the handler takes no principal at all): hash the password,
default `full_name` to the username, construct and commit the row;
`IntegrityError` maps to 409 with a fixed message, any other exception to
500 with the exception text appended. -/
def create_user (hashPw : String → String) (user_create : UserCreate)
    (outcome : CommitOutcome) : Except HttpError CreatedUser :=
  let hashed_password := hashPw user_create.password
  let full_name :=
    match user_create.full_name with
    | some fn => if fn ≠ "" then fn else user_create.username
    | none => user_create.username
  match outcome with
  | .committed =>
    .ok ⟨full_name, user_create.email, user_create.phone, user_create.username,
         user_create.role, user_create.account_status, hashed_password⟩
  | .integrityError =>
    .error ⟨409, "Username, email or phone already registered"⟩
  | .otherError msg =>
    .error ⟨500, "Error creating user: " ++ msg⟩

/-! ## Concrete fixtures for witnesses and counterexamples -/

/-- A well-formed client JWK value. -/
def ecJwk : Value := .obj [("kty", Value.str "EC")]

/-- DPoP proof claims lacking `iat` and `jti`, with an `htu` that does not
end in `/refresh-token/`. -/
def c1DpopClaims : Claims :=
  [("htm", Value.str "POST"), ("htu", Value.str "https://attacker.example/other")]

/-- A proof over those claims correctly signed by the bound key. -/
def c1Proof : DpopJwt := ⟨c1DpopClaims, macDpop ecJwk c1DpopClaims⟩

/-- A refresh-token payload bound to `ecJwk`, unexpired at time 1000. -/
def c1Payload : Claims :=
  [("sub", Value.str "u1"), ("role", Value.str "admin"),
   ("token_type", Value.str "refresh"), ("jti", Value.str "r1"),
   ("cnf", Value.obj [("jwk", ecJwk)]), ("exp", Value.int 2000)]

/-- That payload signed by the process secret. -/
def c1Token : Tok := jwtEncode c1Payload SECRET_KEY ALGORITHM

/-- A `POST /refresh-token/` request presenting `c1Token` and `c1Proof`. -/
def c1Req : Request :=
  ⟨"POST", "/refresh-token/", none, some (some c1Token),
   some (.proof c1Proof), none, none⟩

/-- DPoP proof claims for the resolver: all four claims present but `htm`
is `POST`. -/
def c8Claims : Claims :=
  [("htm", Value.str "POST"), ("htu", Value.str "/x"),
   ("iat", Value.int 500), ("jti", Value.str "j")]

/-- A proof over those claims correctly signed by the bound key. -/
def c8Proof : DpopJwt := ⟨c8Claims, macDpop ecJwk c8Claims⟩

/-- A `GET /x` request carrying that proof: valid signature, wrong method. -/
def c8Req : Request :=
  ⟨"GET", "/x", none, none, some (.proof c8Proof), none, none⟩

/-- A login request whose `X-Client-JWK` header is malformed. -/
def c9Req : Request :=
  ⟨"POST", "/login/", none, none, none, none, some .malformed⟩

/-! ## Dict lemmas -/

theorem find?_prop_mem {α : Type} {p : α → Bool} {l : List α} {a : α}
    (h : l.find? p = some a) : p a = true ∧ a ∈ l := by
  induction l with
  | nil => simp [List.find?] at h
  | cons x xs ih =>
    cases hpx : p x with
    | true =>
      simp [List.find?, hpx] at h
      subst h
      exact ⟨hpx, List.mem_cons_self x xs⟩
    | false =>
      simp [List.find?, hpx] at h
      obtain ⟨h1, h2⟩ := ih h
      exact ⟨h1, List.mem_cons_of_mem x h2⟩

theorem find?_eq_none_of_dictGet_none {d : Claims} {k : String}
    (h : dictGet d k = none) : d.find? (fun kv => kv.1 == k) = none := by
  unfold dictGet at h
  exact Option.map_eq_none'.mp h

theorem any_eq_false_of_dictGet_none {d : Claims} {k : String}
    (h : dictGet d k = none) : d.any (fun kv => kv.1 == k) = false := by
  have hf := find?_eq_none_of_dictGet_none h
  rw [List.any_eq_false]
  intro x hx
  exact List.find?_eq_none.mp hf x hx

theorem dictSet_of_get_none {d : Claims} {k : String}
    (h : dictGet d k = none) (v : Value) : dictSet d k v = d ++ [(k, v)] := by
  simp [dictSet, any_eq_false_of_dictGet_none h]

theorem dictGet_append_single_self {d : Claims} {k : String}
    (h : dictGet d k = none) (v : Value) :
    dictGet (d ++ [(k, v)]) k = some v := by
  have hf := find?_eq_none_of_dictGet_none h
  simp [dictGet, List.find?_append, hf]

theorem dictGet_append_single_ne {d : Claims} {k k' : String}
    (hne : (k == k') = false) (v : Value) :
    dictGet (d ++ [(k, v)]) k' = dictGet d k' := by
  unfold dictGet
  rw [List.find?_append]
  cases hf : d.find? (fun kv => kv.1 == k') with
  | some kv => simp
  | none => simp [List.find?, hne]

theorem dictGet_ne_nil_of_some {d : Claims} {k : String} {v : Value}
    (h : dictGet d k = some v) : d.isEmpty = false := by
  cases d with
  | nil => simp [dictGet] at h
  | cons a l => rfl

theorem any_eq_true_of_dictGet_some {d : Claims} {k : String} {v : Value}
    (h : dictGet d k = some v) : d.any (fun kv => kv.1 == k) = true := by
  unfold dictGet at h
  rw [Option.map_eq_some'] at h
  obtain ⟨kv, hf, hv⟩ := h
  obtain ⟨hp, hm⟩ := find?_prop_mem hf
  rw [List.any_eq_true]
  exact ⟨kv, hm, hp⟩

/-- A token signed with the process secret and `HS512` passes `jwt.decode`'s
algorithm and signature checks and proceeds to claim validation. -/
theorem jwtDecode_encode (p : Claims) (ve : Bool) (now : Int) :
    jwtDecode (jwtEncode p SECRET_KEY ALGORITHM) SECRET_KEY [ALGORITHM] ve now =
      (match dictGet p "iat" with
       | some iv =>
         match pyIntOfValue iv with
         | none => .error .invalidToken
         | some _ => jwtValidateNbfExp p ve now
       | none => jwtValidateNbfExp p ve now) := by
  unfold jwtEncode jwtDecode
  have hc : ([ALGORITHM].contains ALGORITHM) = true := by decide
  simp [hc]

/-! ## C4 — round-trip -/

/-- C4: for every valid claim map `C` (one that does not already carry the
codec-managed registered claims `exp`, `iat`, `nbf`) and every `ttl > 0`,
decoding the token produced by `encode(C, ttl)` before its expiry returns
exactly `C` plus one added integer `exp` claim equal to the encoding time
plus `ttl` minutes, and no other change. -/
theorem claim_C4_roundtrip (C : Claims) (ttl now decNow : Int)
    (_httl : 0 < ttl)
    (hexp : dictGet C "exp" = none)
    (hiat : dictGet C "iat" = none)
    (hnbf : dictGet C "nbf" = none)
    (hbefore : decNow < now + ttl * 60) :
    ∃ tok, create_access_token C (.intMinutes ttl) now = .ok tok ∧
      decode_access_token tok true decNow =
        .ok (C ++ [("exp", Value.int (now + ttl * 60))]) := by
  have hset := dictSet_of_get_none hexp (Value.int (now + ttl * 60))
  refine ⟨jwtEncode (C ++ [("exp", Value.int (now + ttl * 60))]) SECRET_KEY ALGORITHM, ?_, ?_⟩
  · unfold create_access_token
    simp only [deltaSeconds]
    rw [hset]
  · have hiat' : dictGet (C ++ [("exp", Value.int (now + ttl * 60))]) "iat" = none := by
      rw [dictGet_append_single_ne (by decide), hiat]
    have hnbf' : dictGet (C ++ [("exp", Value.int (now + ttl * 60))]) "nbf" = none := by
      rw [dictGet_append_single_ne (by decide), hnbf]
    have hexp' : dictGet (C ++ [("exp", Value.int (now + ttl * 60))]) "exp" =
        some (Value.int (now + ttl * 60)) := dictGet_append_single_self hexp _
    unfold decode_access_token
    rw [jwtDecode_encode, hiat']
    unfold jwtValidateNbfExp
    rw [hnbf']
    unfold jwtValidateExp
    rw [hexp']
    simp only [if_true, pyIntOfValue]
    rw [if_neg (by omega)]

/-- C4 witness: a concrete round-trip. -/
theorem claim_C4_roundtrip_witness :
    ∃ tok, create_access_token [("sub", Value.str "1")] (.intMinutes 15) 1000 = .ok tok ∧
      decode_access_token tok true 1100 =
        .ok ([("sub", Value.str "1")] ++ [("exp", Value.int (1000 + 15 * 60))]) :=
  claim_C4_roundtrip [("sub", Value.str "1")] 15 1000 1100 (by decide) rfl rfl rfl (by decide)

/-! ## C5 — expired token, `verify_exp` switch, unconditional signature check -/

/-- C5: a token encoded with `ttl = -1` minute (already expired) fails
decode with the `Expired` 401 when expiry verification is on, succeeds and
returns the claims when it is off — and the signature is verified in both
cases: the same token with any other signature fails with the signature
401 in either mode.  (`C` ranges over valid claim maps as in C4.) -/
theorem claim_C5_expired_ttl (C : Claims) (now : Int)
    (hexp : dictGet C "exp" = none)
    (hiat : dictGet C "iat" = none)
    (hnbf : dictGet C "nbf" = none) :
    ∃ tok, create_access_token C (.intMinutes (-1)) now = .ok tok ∧
      decode_access_token tok true now = .error ⟨401, "توکن منقضی شده است"⟩ ∧
      decode_access_token tok false now =
        .ok (C ++ [("exp", Value.int (now - 60))]) ∧
      ∀ s, s ≠ macSign SECRET_KEY ALGORITHM
          (serClaims (C ++ [("exp", Value.int (now - 60))])) →
        decode_access_token (.jws ALGORITHM (C ++ [("exp", Value.int (now - 60))]) s) true now
            = .error ⟨401, "امضای توکن نامعتبر است"⟩ ∧
        decode_access_token (.jws ALGORITHM (C ++ [("exp", Value.int (now - 60))]) s) false now
            = .error ⟨401, "امضای توکن نامعتبر است"⟩ := by
  have hval : now + (-1) * 60 = now - 60 := by ring
  have hset := dictSet_of_get_none hexp (Value.int (now - 60))
  have hiat' : dictGet (C ++ [("exp", Value.int (now - 60))]) "iat" = none := by
    rw [dictGet_append_single_ne (by decide), hiat]
  have hnbf' : dictGet (C ++ [("exp", Value.int (now - 60))]) "nbf" = none := by
    rw [dictGet_append_single_ne (by decide), hnbf]
  have hexp' : dictGet (C ++ [("exp", Value.int (now - 60))]) "exp" =
      some (Value.int (now - 60)) := dictGet_append_single_self hexp _
  refine ⟨jwtEncode (C ++ [("exp", Value.int (now - 60))]) SECRET_KEY ALGORITHM, ?_, ?_, ?_, ?_⟩
  · unfold create_access_token
    simp only [deltaSeconds]
    rw [hval, hset]
  · unfold decode_access_token
    rw [jwtDecode_encode, hiat']
    unfold jwtValidateNbfExp
    rw [hnbf']
    unfold jwtValidateExp
    rw [hexp']
    simp only [if_true, pyIntOfValue]
    rw [if_pos (by omega)]
  · unfold decode_access_token
    rw [jwtDecode_encode, hiat']
    unfold jwtValidateNbfExp
    rw [hnbf']
    unfold jwtValidateExp
    simp
  · intro s hs
    constructor <;>
      · unfold decode_access_token jwtDecode
        have hc : ([ALGORITHM].contains ALGORITHM) = true := by decide
        simp [hc, hs]

/-- C5 witness: the concrete expired round-trip with a tampered variant. -/
theorem claim_C5_expired_ttl_witness :
    ∃ tok, create_access_token [("sub", Value.str "1")] (.intMinutes (-1)) 1000 = .ok tok ∧
      decode_access_token tok true 1000 = .error ⟨401, "توکن منقضی شده است"⟩ ∧
      decode_access_token tok false 1000 =
        .ok ([("sub", Value.str "1")] ++ [("exp", Value.int (1000 - 60))]) ∧
      ∀ s, s ≠ macSign SECRET_KEY ALGORITHM
          (serClaims ([("sub", Value.str "1")] ++ [("exp", Value.int (1000 - 60))])) →
        decode_access_token (.jws ALGORITHM ([("sub", Value.str "1")] ++ [("exp", Value.int (1000 - 60))]) s) true 1000
            = .error ⟨401, "امضای توکن نامعتبر است"⟩ ∧
        decode_access_token (.jws ALGORITHM ([("sub", Value.str "1")] ++ [("exp", Value.int (1000 - 60))]) s) false 1000
            = .error ⟨401, "امضای توکن نامعتبر است"⟩ :=
  claim_C5_expired_ttl [("sub", Value.str "1")] 1000 rfl rfl rfl

/-! ## C10 — the caller's claim map is never mutated -/

theorem getD_eq_getElem?_getD {α : Type} (l : List α) (n : Nat) (d : α) :
    l.getD n d = (l[n]?).getD d := by
  induction l generalizing n with
  | nil => cases n <;> rfl
  | cons x xs ih =>
    cases n with
    | zero => simp [List.getD]
    | succ m => simp [List.getD] at ih ⊢

/-- C10: `create_access_token` operates on a copy — running it over the
explicit dict heap leaves the caller's dict cell exactly as it was, for
every delta (including the `TypeError` path) and every encoding time. -/
theorem claim_C10_no_caller_mutation (h : DictHeap) (r : Nat)
    (ed : ExpiresDelta) (now : Int) (hr : r < h.cells.length) :
    ((create_access_token_heap h r ed now).1).read r = h.read r := by
  unfold create_access_token_heap DictHeap.alloc DictHeap.write DictHeap.read
  cases hds : deltaSeconds ed with
  | none =>
    simp only
    rw [List.getD_append _ _ _ _ hr]
  | some ds =>
    simp only
    rw [getD_eq_getElem?_getD, getD_eq_getElem?_getD]
    rw [List.getElem?_set_ne (by omega)]
    rw [List.getElem?_append, if_pos hr]

/-- C10 witness: a concrete heap with one caller dict. -/
theorem claim_C10_no_caller_mutation_witness :
    ((create_access_token_heap ⟨[[("sub", Value.str "1")]]⟩ 0 .noneV 0).1).read 0 =
      DictHeap.read ⟨[[("sub", Value.str "1")]]⟩ 0 :=
  claim_C10_no_caller_mutation ⟨[[("sub", Value.str "1")]]⟩ 0 .noneV 0 (by decide)

/-! ## C6 — the role gate -/

/-- C6: for every required-role set and every authenticated principal
(one whose `role` claim is a string, as `get_current_user` guarantees):
an empty set lets the principal through unchanged; a non-empty set lets
the principal through exactly when its role is a member, and fails with
403 otherwise. -/
theorem claim_C6_role_gate (roles : List String) (u : Claims) (r : String)
    (hrole : dictGet u "role" = some (.str r)) :
    (roles = [] → require_roles roles u = .ok u) ∧
    (roles ≠ [] → r ∈ roles → require_roles roles u = .ok u) ∧
    (roles ≠ [] → r ∉ roles →
      require_roles roles u = .error ⟨403, "شما دسترسی لازم را ندارید"⟩) := by
  refine ⟨?_, ?_, ?_⟩
  · intro he
    subst he
    rfl
  · intro hne hmem
    unfold require_roles roleMem
    rw [hrole]
    have hc : roles.contains r = true := by
      rw [List.contains_iff_exists_mem_beq]
      exact ⟨r, hmem, by simp⟩
    simp [List.isEmpty_iff, hne, hc, hmem]
  · intro hne hmem
    unfold require_roles roleMem
    rw [hrole]
    have hc : roles.contains r = false := by
      rw [Bool.eq_false_iff]
      intro hch
      rw [List.contains_iff_exists_mem_beq] at hch
      obtain ⟨a, ha, hb⟩ := hch
      rw [beq_iff_eq] at hb
      exact hmem (hb ▸ ha)
    simp [List.isEmpty_iff, hne, hc, hmem]

/-- C6 witness: with `{"admin"}` required, an `admin` principal passes and
a `job_seeker` principal is rejected with 403; with no required roles the
`job_seeker` principal passes. -/
theorem claim_C6_role_gate_witness :
    (require_roles ["admin"] [("id", Value.str "1"), ("role", Value.str "admin")] =
      .ok [("id", Value.str "1"), ("role", Value.str "admin")]) ∧
    (require_roles ["admin"] [("id", Value.str "2"), ("role", Value.str "job_seeker")] =
      .error ⟨403, "شما دسترسی لازم را ندارید"⟩) ∧
    (require_roles [] [("id", Value.str "2"), ("role", Value.str "job_seeker")] =
      .ok [("id", Value.str "2"), ("role", Value.str "job_seeker")]) :=
  ⟨(claim_C6_role_gate ["admin"] [("id", Value.str "1"), ("role", Value.str "admin")] "admin"
      rfl).2.1 (by decide) (by decide),
   (claim_C6_role_gate ["admin"] [("id", Value.str "2"), ("role", Value.str "job_seeker")]
      "job_seeker" rfl).2.2 (by decide) (by decide),
   (claim_C6_role_gate [] [("id", Value.str "2"), ("role", Value.str "job_seeker")]
      "job_seeker" rfl).1 rfl⟩

/-! ## C7 — login failures are indistinguishable -/

/-- C7: every failing login — unknown username or wrong password alike —
produces one and the same generic 401: whenever `authenticate_user`
raises an `HTTPException`, it is exactly `401, "نام کاربری یا گذرواژه پیدا
نشد"`, so the two causes cannot be told apart by the caller. -/
theorem claim_C7_generic_unauthorized (store : List UserRec)
    (verify : String → String → Bool) (username password : String)
    (e : HttpError)
    (h : authenticate_user store verify username password = .error (.http e)) :
    e = ⟨401, "نام کاربری یا گذرواژه پیدا نشد"⟩ := by
  unfold authenticate_user at h
  split at h
  · simp at h
  · split at h
    · exact (PyExn.http.inj (Except.error.inj h)).symm
    · split at h
      · exact (PyExn.http.inj (Except.error.inj h)).symm
      · simp at h

/-- C7 witness: both failure causes hit the theorem — an empty store
(unknown user) and a store whose user rejects the password. -/
theorem claim_C7_generic_unauthorized_witness :
    (⟨401, "نام کاربری یا گذرواژه پیدا نشد"⟩ : HttpError) =
      ⟨401, "نام کاربری یا گذرواژه پیدا نشد"⟩ ∧
    (⟨401, "نام کاربری یا گذرواژه پیدا نشد"⟩ : HttpError) =
      ⟨401, "نام کاربری یا گذرواژه پیدا نشد"⟩ :=
  ⟨claim_C7_generic_unauthorized [] (fun _ _ => false) "alice" "pw"
      ⟨401, "نام کاربری یا گذرواژه پیدا نشد"⟩ rfl,
   claim_C7_generic_unauthorized
      [⟨"u1", "alice", "digest", "admin", "Alice A", "فعال"⟩]
      (fun _ _ => false) "alice" "wrong"
      ⟨401, "نام کاربری یا گذرواژه پیدا نشد"⟩ rfl⟩

/-! ## C2 — admin peer-protection on user records -/

/-- C2: for modify (patch or delete) requests by an `admin` principal on a
user record: a target owned by another `admin` or by a `full_admin` (not
the requester's own record) is rejected with 403 by both gates, and a
target owned by a `job_seeker` or `employer` passes both gates. -/
theorem claim_C2_admin_peer_protection (rid tid trole : String) :
    ((trole = ADMIN ∨ trole = FULL_ADMIN) → tid ≠ rid →
      (∃ e, patch_user_gate ADMIN rid tid trole = .error e ∧ e.status = 403) ∧
      (∃ e, delete_user_gate ADMIN rid tid trole = .error e ∧ e.status = 403)) ∧
    ((trole = JOB_SEEKER ∨ trole = EMPLOYER) →
      patch_user_gate ADMIN rid tid trole = .ok () ∧
      delete_user_gate ADMIN rid tid trole = .ok ()) := by
  constructor
  · intro hrole htid
    have h1 : patch_user_gate ADMIN rid tid trole =
        .error ⟨403, "ادمین فقط مجاز به ویرایش خودش یا کاربران با نقش JOB_SEEKER/EMPLOYER است"⟩ := by
      rcases hrole with h | h <;> subst h <;>
        simp [patch_user_gate, ADMIN, FULL_ADMIN, JOB_SEEKER, EMPLOYER, htid]
    have h2 : delete_user_gate ADMIN rid tid trole =
        .error ⟨403, "ادمین فقط مجاز به حذف خودش یا کاربران با نقش JOB_SEEKER/EMPLOYER است"⟩ := by
      rcases hrole with h | h <;> subst h <;>
        simp [delete_user_gate, ADMIN, FULL_ADMIN, JOB_SEEKER, EMPLOYER, htid]
    exact ⟨⟨_, h1, rfl⟩, ⟨_, h2, rfl⟩⟩
  · intro hrole
    rcases hrole with h | h <;> subst h <;>
      exact ⟨by simp [patch_user_gate, ADMIN, FULL_ADMIN, JOB_SEEKER, EMPLOYER],
             by simp [delete_user_gate, ADMIN, FULL_ADMIN, JOB_SEEKER, EMPLOYER]⟩

/-- C2 witness: concrete ids and roles on both sides of the policy. -/
theorem claim_C2_admin_peer_protection_witness :
    ((∃ e, patch_user_gate ADMIN "r1" "t1" "admin" = .error e ∧ e.status = 403) ∧
     (∃ e, delete_user_gate ADMIN "r1" "t1" "admin" = .error e ∧ e.status = 403)) ∧
    (patch_user_gate ADMIN "r1" "t2" "job_seeker" = .ok () ∧
     delete_user_gate ADMIN "r1" "t2" "job_seeker" = .ok ()) :=
  ⟨(claim_C2_admin_peer_protection "r1" "t1" "admin").1 (Or.inl rfl) (by decide),
   (claim_C2_admin_peer_protection "r1" "t2" "job_seeker").2 (Or.inl rfl)⟩

/-! ## C3 — the user router's create endpoint has no auth and no role gate -/

/-- C3: `create_user` of `routers/user.py` takes no principal (its auth
dependencies are commented out) and — for any body, any hash function and
any store outcome — never produces 401 or 403: its only error branches
are the 409 uniqueness conflict and the 500 on other store errors; when
the commit succeeds it creates the record with exactly the requested
role, including `full_admin` and `admin`. -/
theorem claim_C3_create_user_unauthenticated (hashPw : String → String)
    (u : UserCreate) (outcome : CommitOutcome) :
    (∀ e, create_user hashPw u outcome = .error e →
      e.status ≠ 401 ∧ e.status ≠ 403 ∧ (e.status = 409 ∨ e.status = 500)) ∧
    (outcome = .committed →
      ∃ rec, create_user hashPw u outcome = .ok rec ∧ rec.role = u.role) := by
  constructor
  · intro e he
    cases outcome with
    | committed => simp [create_user] at he
    | integrityError =>
      have h' := Except.error.inj he
      rw [← h']
      exact ⟨by decide, by decide, Or.inl rfl⟩
    | otherError msg =>
      have h' := Except.error.inj he
      rw [← h']
      exact ⟨by simp, by simp, Or.inr rfl⟩
  · intro ho
    subst ho
    exact ⟨_, rfl, rfl⟩

/-- C3 witness: a `full_admin` body is created on a successful commit, and
a failed commit yields 409 or 500, never 401/403. -/
theorem claim_C3_create_user_unauthenticated_witness :
    (∀ e, create_user (fun p => p) ⟨"root", "r@x.io", none, "pw", "full_admin", "فعال", none⟩
        .integrityError = .error e →
      e.status ≠ 401 ∧ e.status ≠ 403 ∧ (e.status = 409 ∨ e.status = 500)) ∧
    (CommitOutcome.committed = .committed →
      ∃ rec, create_user (fun p => p)
          ⟨"root", "r@x.io", none, "pw", "full_admin", "فعال", none⟩ .committed = .ok rec ∧
        rec.role = "full_admin") :=
  claim_C3_create_user_unauthenticated (fun p => p)
    ⟨"root", "r@x.io", none, "pw", "full_admin", "فعال", none⟩ .integrityError
    |>.1 |> fun h1 =>
  ⟨h1, (claim_C3_create_user_unauthenticated (fun p => p)
    ⟨"root", "r@x.io", none, "pw", "full_admin", "فعال", none⟩ .committed).2⟩

/-! ## C9 — malformed client-key header fails closed with 400 -/

/-- C9: a login request whose `X-Client-JWK` header is malformed (bad hex
or bad JSON) fails with exactly 400 — distinct from the 401 of every
authentication failure — before any credential is checked, so no token is
issued. -/
theorem claim_C9_malformed_client_key (store : List UserRec)
    (verify : String → String → Bool) (request : Request)
    (username password : String) (now : Int)
    (hmal : request.xClientJwk = some .malformed) :
    login store verify request username password now =
      .error (.http ⟨400, "فرمت JWK ناقص است"⟩) ∧ (400 : Nat) ≠ 401 := by
  refine ⟨?_, by decide⟩
  unfold login
  rw [hmal]

/-- C9 witness: the concrete malformed-header request. -/
theorem claim_C9_malformed_client_key_witness :
    login [] (fun _ _ => true) c9Req "alice" "pw" 0 =
      .error (.http ⟨400, "فرمت JWK ناقص است"⟩) ∧ (400 : Nat) ≠ 401 :=
  claim_C9_malformed_client_key [] (fun _ _ => true) c9Req "alice" "pw" 0 rfl

/-! ## C8 — htm mismatch rejected even with a valid proof signature -/

/-- C8: when the resolver validates the DPoP proof of a `cnf.jwk`-bound
token, a proof whose signature is valid under the bound key but whose
`htm` does not case-insensitively equal the actual request method fails
with a 401 (either the incomplete-proof 401 when some other required
claim is also missing, or the method-mismatch 401). -/
theorem claim_C8_htm_mismatch (request : Request) (p : DpopJwt)
    (cnf_jwk jv : Value) (m : String) (now : Int)
    (hdp : request.dpopHeader = some (.proof p))
    (hjwk : jwkFromJson cnf_jwk = some jv)
    (hsig : p.sig = macDpop jv p.claims)
    (hhtm : dictGet p.claims "htm" = some (.str m))
    (hmm : pyToUpper m ≠ pyToUpper request.method) :
    ∃ e, _validate_dpop_proof request cnf_jwk now = .error (.http e) ∧
      e.status = 401 := by
  unfold _validate_dpop_proof
  rw [hdp, hjwk]
  dsimp only
  rw [if_neg (by simp [hsig])]
  cases hall : (truthyOpt (dictGet p.claims "htm") && truthyOpt (dictGet p.claims "htu") &&
      truthyOpt (dictGet p.claims "iat") && truthyOpt (dictGet p.claims "jti")) with
  | false =>
    refine ⟨⟨401, "DPoP proof ناقص است"⟩, ?_, rfl⟩
    simp only [hall, Bool.not_false, if_true]
  | true =>
    refine ⟨⟨401, "DPoP proof با متد درخواست همخوانی ندارد"⟩, ?_, rfl⟩
    simp only [hall, Bool.not_true, Bool.false_eq_true, if_false]
    rw [hhtm]
    exact if_pos hmm

/-- C8 witness: a valid-signature proof with `htm = "POST"` on a `GET`
request is rejected with 401. -/
theorem claim_C8_htm_mismatch_witness :
    ∃ e, _validate_dpop_proof c8Req ecJwk 500 = .error (.http e) ∧
      e.status = 401 :=
  claim_C8_htm_mismatch c8Req c8Proof ecJwk ecJwk "POST" 500
    rfl rfl rfl rfl
    (show pyToUpper "POST" ≠ pyToUpper "GET" by decide)

/-! ## C1 — the refresh endpoint's DPoP check is only partial -/

theorem create_intMinutes_ok (p : Claims) (m now : Int) :
    create_access_token p (.intMinutes m) now =
      .ok (jwtEncode (dictSet p "exp" (.int (now + m * 60))) SECRET_KEY ALGORITHM) := rfl

set_option maxRecDepth 100000 in
/-- C1 counterexample: a refresh request whose decoded token carries
`confirmation.jwk`, presented with a DPoP proof that the full Mode B
verification of the KeyBindingVerifier rejects with 401 (its `iat` and
`jti` are missing and its `htu` does not end in the request path) — yet
`refresh_token` mints a fresh token pair, because its inline check only
verifies the signature, `htm`/`htu` presence and the `htm` match. -/
theorem claim_C1_refresh_counterexample :
    (refresh_token c1Req 1000).isOk = true ∧
    _validate_dpop_proof c1Req ecJwk 1000 =
      .error (.http ⟨401, "DPoP proof ناقص است"⟩) :=
  ⟨rfl, rfl⟩

/-- C1 (amended): for refresh requests whose decoded token claims carry a
`confirmation.jwk`, the refresh operation performs only a partial
signed-proof verification before minting — proof presence, loading of the
bound key, proof signature against the bound key, presence of `htm` and
`htu`, and the case-insensitive `htm` match with the request method; on
failure of any of these checks (absent proof, unloadable bound key,
malformed proof, invalid signature, missing `htm`/`htu`, mismatched
`htm`) no token is minted and the result is 401, but the `htu`
suffix-match against the request path, the `|now - iat| <= 300` window
and the `iat`/`jti` presence checks of the KeyBindingVerifier are not
performed: any proof passing the partial checks mints a rotated pair. -/
theorem claim_C1_refresh_partial_dpop (request : Request) (now : Int)
    (tk : Tok) (payload : Claims) (kvs : List (String × Value)) (jo : Value)
    (htok : request.refreshHeader = some (some tk))
    (hdec : decode_access_token tk true now = .ok payload)
    (htyp : dictGet payload "token_type" = some (.str "refresh"))
    (hcnf : dictGet payload "cnf" = some (.obj kvs)) :
    ∀ jv, dictGet kvs "jwk" = some jv →
    ((request.dpopHeader = none → request.dpopQuery = none →
      refresh_token request now =
        .error (.http ⟨401, "DPoP proof لازم است (برای توکن refresh با cnf)."⟩)) ∧
    (∀ dh, request.dpopHeader = some dh → jwkFromJson jv = none →
      refresh_token request now =
        .error (.http ⟨401, "DPoP proof امضا/فرمت نامعتبر است"⟩)) ∧
    (request.dpopHeader = some .malformed → jwkFromJson jv = some jo →
      refresh_token request now =
        .error (.http ⟨401, "DPoP proof امضا/فرمت نامعتبر است"⟩)) ∧
    (∀ p, request.dpopHeader = some (.proof p) →
      jwkFromJson jv = some jo →
      p.sig ≠ macDpop jo p.claims →
      refresh_token request now =
        .error (.http ⟨401, "DPoP proof امضا/فرمت نامعتبر است"⟩)) ∧
    (∀ p, request.dpopHeader = some (.proof p) →
      jwkFromJson jv = some jo →
      p.sig = macDpop jo p.claims →
      (truthyOpt (dictGet p.claims "htu") && truthyOpt (dictGet p.claims "htm")) = false →
      refresh_token request now =
        .error (.http ⟨401, "DPoP proof نامعتبر است"⟩)) ∧
    (∀ p m, request.dpopHeader = some (.proof p) →
      jwkFromJson jv = some jo →
      p.sig = macDpop jo p.claims →
      dictGet p.claims "htm" = some (.str m) → m ≠ "" →
      truthyOpt (dictGet p.claims "htu") = true →
      pyToUpper m = pyToUpper request.method →
      (refresh_token request now).isOk = true) ∧
    (∀ p m, request.dpopHeader = some (.proof p) →
      jwkFromJson jv = some jo →
      p.sig = macDpop jo p.claims →
      dictGet p.claims "htm" = some (.str m) → m ≠ "" →
      truthyOpt (dictGet p.claims "htu") = true →
      pyToUpper m ≠ pyToUpper request.method →
      refresh_token request now =
        .error (.http ⟨401, "DPoP proof با متد ناسازگار است"⟩))) := by
  intro jv hjwk
  have hkne : kvs.isEmpty = false := dictGet_ne_nil_of_some hjwk
  have hkany : kvs.any (fun kv => kv.1 == "jwk") = true := any_eq_true_of_dictGet_some hjwk
  refine ⟨?_, ?_, ?_, ?_, ?_, ?_, ?_⟩
  · intro h1 h2
    simp [refresh_token, htok, hdec, htyp, hcnf, h1, h2, refreshCnfGate,
      truthy, hkne, hkany, hjwk]
  · intro dh hdp hjnone
    simp [refresh_token, htok, hdec, htyp, hcnf, hdp, refreshCnfGate,
      truthy, hkne, hkany, hjwk, refreshDpopCheck, hjnone]
  · intro hdp hjo
    simp [refresh_token, htok, hdec, htyp, hcnf, hdp, refreshCnfGate,
      truthy, hkne, hkany, hjwk, refreshDpopCheck, hjo]
  · intro p hdp hjo hsig
    simp [refresh_token, htok, hdec, htyp, hcnf, hdp, refreshCnfGate,
      truthy, hkne, hkany, hjwk, refreshDpopCheck, hjo, hsig]
  · intro p hdp hjo hsig hmiss
    simp [refresh_token, htok, hdec, htyp, hcnf, hdp, refreshCnfGate,
      truthy, hkne, hkany, hjwk, refreshDpopCheck, hjo, hsig, hmiss]
  · intro p m hdp hjo hsig hhtm hm hhtu hmatch
    have htmT : truthyOpt (some (Value.str m)) = true := by
      simp [truthyOpt, truthy, hm]
    have hcnfT : truthyOpt (some (Value.obj kvs)) = true := by
      simp [truthyOpt, truthy, hkne]
    simp [refresh_token, htok, hdec, htyp, hcnf, hdp, refreshCnfGate,
      truthy, hkne, hkany, hjwk, refreshDpopCheck, hjo, hsig, hhtm, htmT,
      hcnfT, hhtu, hmatch, create_intMinutes_ok, Except.isOk, Except.toBool]
  · intro p m hdp hjo hsig hhtm hm hhtu hmatch
    have htmT : truthyOpt (some (Value.str m)) = true := by
      simp [truthyOpt, truthy, hm]
    have hcnfT : truthyOpt (some (Value.obj kvs)) = true := by
      simp [truthyOpt, truthy, hkne]
    simp [refresh_token, htok, hdec, htyp, hcnf, hdp, refreshCnfGate,
      truthy, hkne, hkany, hjwk, refreshDpopCheck, hjo, hsig, hhtm, htmT,
      hcnfT, hhtu, hmatch]

set_option maxRecDepth 100000 in
/-- C1 witness: the concrete bound refresh request of the counterexample
satisfies the amended theorem's hypotheses. -/
theorem claim_C1_refresh_partial_dpop_witness :
    ((c1Req.dpopHeader = none → c1Req.dpopQuery = none →
      refresh_token c1Req 1000 =
        .error (.http ⟨401, "DPoP proof لازم است (برای توکن refresh با cnf)."⟩)) ∧
    (∀ dh, c1Req.dpopHeader = some dh → jwkFromJson ecJwk = none →
      refresh_token c1Req 1000 =
        .error (.http ⟨401, "DPoP proof امضا/فرمت نامعتبر است"⟩)) ∧
    (c1Req.dpopHeader = some .malformed → jwkFromJson ecJwk = some ecJwk →
      refresh_token c1Req 1000 =
        .error (.http ⟨401, "DPoP proof امضا/فرمت نامعتبر است"⟩)) ∧
    (∀ p, c1Req.dpopHeader = some (.proof p) →
      jwkFromJson ecJwk = some ecJwk →
      p.sig ≠ macDpop ecJwk p.claims →
      refresh_token c1Req 1000 =
        .error (.http ⟨401, "DPoP proof امضا/فرمت نامعتبر است"⟩)) ∧
    (∀ p, c1Req.dpopHeader = some (.proof p) →
      jwkFromJson ecJwk = some ecJwk →
      p.sig = macDpop ecJwk p.claims →
      (truthyOpt (dictGet p.claims "htu") && truthyOpt (dictGet p.claims "htm")) = false →
      refresh_token c1Req 1000 =
        .error (.http ⟨401, "DPoP proof نامعتبر است"⟩)) ∧
    (∀ p m, c1Req.dpopHeader = some (.proof p) →
      jwkFromJson ecJwk = some ecJwk →
      p.sig = macDpop ecJwk p.claims →
      dictGet p.claims "htm" = some (.str m) → m ≠ "" →
      truthyOpt (dictGet p.claims "htu") = true →
      pyToUpper m = pyToUpper c1Req.method →
      (refresh_token c1Req 1000).isOk = true) ∧
    (∀ p m, c1Req.dpopHeader = some (.proof p) →
      jwkFromJson ecJwk = some ecJwk →
      p.sig = macDpop ecJwk p.claims →
      dictGet p.claims "htm" = some (.str m) → m ≠ "" →
      truthyOpt (dictGet p.claims "htu") = true →
      pyToUpper m ≠ pyToUpper c1Req.method →
      refresh_token c1Req 1000 =
        .error (.http ⟨401, "DPoP proof با متد ناسازگار است"⟩))) :=
  claim_C1_refresh_partial_dpop c1Req 1000 c1Token c1Payload
    [("jwk", ecJwk)] ecJwk rfl rfl rfl rfl ecJwk rfl

end Karinja
